import Mathlib

/-!
# Verification of the TeslaMate smart geocoding script

A shallow embedding of `scripts/geocode-addresses.py`.  Coordinates are
modelled as rationals (idealising the script's IEEE-754 doubles), the
PostgreSQL store as explicit lists of rows, the Google reverse-geocoding
endpoint as an oracle function `ℚ → ℚ → Option GeocodeResult` (the script's
`reverse_geocode_google` returns `data["results"][0]` on success and `None`
on HTTP errors, URL errors, non-OK status or empty results), and every
store/network side effect as an element of an explicit effect trace.
-/

namespace Geocode

/-- Python's built-in `round` on a real value: round half to even
(banker's rounding), used by `snap_to_grid` and by `round(x, 6)`. -/
def bankersRound (q : ℚ) : ℤ :=
  let f := q.floor
  let r := q - f
  if r < 1/2 then f
  else if 1/2 < r then f + 1
  else if f % 2 = 0 then f else f + 1

/-- The value computed by `snap_to_grid` when `grid_size` is nonzero:
`round(lat / grid_size) * grid_size` componentwise (source lines 41-46). -/
def snapCell (lat lng grid_size : ℚ) : ℚ × ℚ :=
  (bankersRound (lat / grid_size) * grid_size,
   bankersRound (lng / grid_size) * grid_size)

/-- `snap_to_grid(lat, lng, grid_size)` (source lines 41-46).  Python float
division raises `ZeroDivisionError` when `grid_size == 0`; the raised
exception is modelled by `none`. -/
def snap_to_grid (lat lng grid_size : ℚ) : Option (ℚ × ℚ) :=
  if grid_size = 0 then none else some (snapCell lat lng grid_size)

/-- `DEFAULT_GRID_SIZE = 0.0005` (source line 38). -/
def DEFAULT_GRID_SIZE : ℚ := 0.0005

/-- The argument checks `main` performs before touching the database
(source lines 273-281): an API key must be present unless `--dry-run`
is given, and a database password must be present.  The grid size is
accepted as-is: no check inspects it. -/
def configChecksPass (api_key : Option String) (db_pass : Option String)
    (dry_run : Bool) (grid_size : ℚ) : Bool :=
  (api_key.isSome || dry_run) && db_pass.isSome

/-- The three kinds of pending records produced by `get_pending_records`
(source lines 140-180). -/
inductive RecordType
  | drive_start
  | drive_end
  | charging
deriving DecidableEq, Repr

/-- One row of the pending-records working set: `(id, type, latitude,
longitude)` as selected by `get_pending_records`. -/
structure PendingRecord where
  id : ℕ
  type : RecordType
  lat : ℚ
  lng : ℚ
deriving DecidableEq, Repr

/-- One entry of `address_components` in a Google geocoding result. -/
structure AddressComponent where
  long_name : String
  types : List String
deriving DecidableEq, Repr

/-- The parts of a Google reverse-geocoding result (`data["results"][0]`)
the script reads: the formatted address, the address components and the
raw JSON payload (`json.dumps(result)`). -/
structure GeocodeResult where
  formatted_address : String
  address_components : List AddressComponent
  raw : String
deriving DecidableEq, Repr

/-- `extract_component(result, component_type)` (source lines 74-79):
the `long_name` of the first component whose `types` contain the
requested type, else `None`. -/
def extract_component (result : GeocodeResult) (component_type : String) :
    Option String :=
  (result.address_components.find?
    (fun comp => comp.types.contains component_type)).map (·.long_name)

/-- Python's `x or y` on optional strings: `y` when `x` is `None` or the
empty string (both are falsy), else `x`. -/
def pyOr (x y : Option String) : Option String :=
  match x with
  | none => y
  | some s => if s = "" then y else some s

/-- Python's `round(x, 6)`: banker's rounding to 6 decimal places, used
for the stored latitude/longitude (source lines 86-87). -/
def round6 (q : ℚ) : ℚ :=
  (bankersRound (q * 1000000) : ℚ) / 1000000

/-- A row of the `addresses` table as written by `insert_address`
(source lines 110-128); `osm_id`/`osm_type` are always NULL and the
timestamps are store-generated, so they are omitted. -/
structure Address where
  display_name : String
  latitude : ℚ
  longitude : ℚ
  name : Option String
  house_number : Option String
  road : Option String
  neighbourhood : Option String
  city : Option String
  county : Option String
  postcode : Option String
  state : Option String
  state_district : Option String
  country : Option String
  raw : String
deriving DecidableEq, Repr

/-- `google_result_to_address(result, grid_lat, grid_lng)` (source lines
82-107). -/
def google_result_to_address (result : GeocodeResult) (grid_lat grid_lng : ℚ) :
    Address :=
  { display_name := result.formatted_address
    latitude := round6 grid_lat
    longitude := round6 grid_lng
    name := pyOr (extract_component result "point_of_interest")
      (pyOr (extract_component result "premise")
        (extract_component result "route"))
    house_number := extract_component result "street_number"
    road := extract_component result "route"
    neighbourhood := pyOr (extract_component result "neighborhood")
      (extract_component result "sublocality")
    city := pyOr (extract_component result "locality")
      (extract_component result "sublocality_level_1")
    county := extract_component result "administrative_area_level_2"
    postcode := extract_component result "postal_code"
    state := extract_component result "administrative_area_level_1"
    state_district := extract_component result "administrative_area_level_3"
    country := extract_component result "country"
    raw := result.raw }

/-- A row of the `drives` table, restricted to the columns the script
touches. -/
structure DriveRow where
  id : ℕ
  start_address_id : ℕ
  end_address_id : ℕ
deriving DecidableEq, Repr

/-- A row of the `charging_processes` table, restricted to the columns
the script touches. -/
structure ChargingRow where
  id : ℕ
  address_id : ℕ
deriving DecidableEq, Repr

/-- The part of the database the script reads and writes. -/
structure Store where
  drives : List DriveRow
  charging_processes : List ChargingRow
  addresses : List (ℕ × Address)
deriving DecidableEq, Repr

/-- `INSERT INTO addresses ... RETURNING id` (source lines 110-128); the
serial id is modelled by an explicit next-id counter. -/
def insert_address (s : Store) (addr_id : ℕ) (addr : Address) : Store :=
  { s with addresses := s.addresses ++ [(addr_id, addr)] }

/-- `update_records(cur, record_type, record_id, address_id)` (source
lines 207-224). -/
def update_records (s : Store) (record_type : RecordType)
    (record_id address_id : ℕ) : Store :=
  match record_type with
  | RecordType.drive_start =>
    { s with drives := s.drives.map fun d =>
        if d.id = record_id then { d with start_address_id := address_id } else d }
  | RecordType.drive_end =>
    { s with drives := s.drives.map fun d =>
        if d.id = record_id then { d with end_address_id := address_id } else d }
  | RecordType.charging =>
    { s with charging_processes := s.charging_processes.map fun c =>
        if c.id = record_id then { c with address_id := address_id } else c }

/-- `DELETE FROM addresses WHERE id = placeholder_id` (source line 451). -/
def delete_placeholder (s : Store) (placeholder_id : ℕ) : Store :=
  { s with addresses := s.addresses.filter fun a => decide (a.1 ≠ placeholder_id) }

/-- The Phase-3 reference count (source lines 437-447): occurrences of the
placeholder id as a drive start address, a drive end address, or a
charging-process address. -/
def countPlaceholderRefs (s : Store) (placeholder_id : ℕ) : ℕ :=
  (s.drives.filter fun d => decide (d.start_address_id = placeholder_id)).length
  + (s.drives.filter fun d => decide (d.end_address_id = placeholder_id)).length
  + (s.charging_processes.filter fun c => decide (c.address_id = placeholder_id)).length

/-- One store/network side effect, in program order. -/
inductive Eff
  | apiCall (lat lng : ℚ)
  | insertAddr (id : ℕ) (addr : Address)
  | updateRec (record_type : RecordType) (record_id address_id : ℕ)
  | commit
  | deleteAddr (id : ℕ)
deriving DecidableEq, Repr

/-- A cluster: a grid cell together with the pending records snapped to
it, in insertion order (the value part of the `clusters` dict). -/
abbrev Cluster := (ℚ × ℚ) × List PendingRecord

/-- Insertion into the `clusters` dict (source lines 333-338): Python
dicts preserve insertion order of keys, and records are appended at the
end of their cell's list. -/
def addToCluster (clusters : List Cluster) (cell : ℚ × ℚ)
    (r : PendingRecord) : List Cluster :=
  match clusters with
  | [] => [(cell, [r])]
  | (c, rs) :: rest =>
    if c = cell then (c, rs ++ [r]) :: rest
    else (c, rs) :: addToCluster rest cell r

/-- The cluster-building loop of `main` (source lines 333-338). -/
def buildClusters (pending : List PendingRecord) (grid_size : ℚ) :
    List Cluster :=
  pending.foldl
    (fun cs r => addToCluster cs (snapCell r.lat r.lng grid_size) r) []

/-- Association-list lookup on grid cells (Python `cell in grid` /
`grid[cell]`). -/
def gridLookup (grid : List ((ℚ × ℚ) × ℕ)) (cell : ℚ × ℚ) : Option ℕ :=
  match grid with
  | [] => none
  | (c, i) :: rest => if c = cell then some i else gridLookup rest cell

/-- `build_existing_grid(existing_addresses, grid_size)` (source lines
196-204): first address encountered per cell wins. -/
def build_existing_grid (existing : List (ℕ × ℚ × ℚ)) (grid_size : ℚ) :
    List ((ℚ × ℚ) × ℕ) :=
  existing.foldl
    (fun grid e =>
      match gridLookup grid (snapCell e.2.1 e.2.2 grid_size) with
      | some _ => grid
      | none => grid ++ [(snapCell e.2.1 e.2.2 grid_size, e.1)])
    []

/-- Result of Phase 1 (source lines 349-372): counters, the clusters
left for Phase 2, the store after the reuse fan-out, and the effects
issued. -/
structure P1Result where
  matched : ℕ
  updated1 : ℕ
  cells_to_geocode : List Cluster
  store : Store
  trace : List Eff
deriving Repr

/-- The Phase-1 loop (source lines 354-364): clusters whose cell has an
existing address are fanned out to that address (updates skipped in dry
run, counters still maintained); the rest become `cells_to_geocode`. -/
def phase1 (dry_run : Bool) (grid : List ((ℚ × ℚ) × ℕ)) :
    List Cluster → Store → P1Result
  | [], store => ⟨0, 0, [], store, []⟩
  | (cell, records) :: rest, store =>
    match gridLookup grid cell with
    | some addr_id =>
      let store' := if dry_run then store else
        records.foldl (fun st r => update_records st r.type r.id addr_id) store
      let effs := if dry_run then ([] : List Eff) else
        records.map fun r => Eff.updateRec r.type r.id addr_id
      let res := phase1 dry_run grid rest store'
      ⟨res.matched + 1, res.updated1 + records.length,
        res.cells_to_geocode, res.store, effs ++ res.trace⟩
    | none =>
      let res := phase1 dry_run grid rest store
      ⟨res.matched, res.updated1, (cell, records) :: res.cells_to_geocode,
        res.store, res.trace⟩

/-- The mutable state of the Phase-2 loop (source lines 387-426).  The
`grid` field carries `existing_grid`, which is in scope during Phase 2;
the source never modifies it there. -/
structure P2State where
  store : Store
  grid : List ((ℚ × ℚ) × ℕ)
  next_addr_id : ℕ
  api_calls : ℕ
  api_errors : ℕ
  records_updated : ℕ
  trace : List Eff
deriving Repr

/-- One iteration of the Phase-2 loop (source lines 392-424): one
provider call on the first record's actual coordinate; on success insert
the address built from the grid-snapped cell, update every record of the
cluster, and commit when the running call count is a multiple of 50; on
failure only count the error.  The `[]` case is unreachable because
`buildClusters` only produces nonempty clusters. -/
def phase2Step (provider : ℚ → ℚ → Option GeocodeResult)
    (s : P2State) (cl : Cluster) : P2State :=
  match cl.2 with
  | [] => s
  | r0 :: _ =>
    match provider r0.lat r0.lng with
    | none =>
      { s with api_calls := s.api_calls + 1,
               api_errors := s.api_errors + 1,
               trace := s.trace ++ [Eff.apiCall r0.lat r0.lng] }
    | some res =>
      let addr := google_result_to_address res cl.1.1 cl.1.2
      let addr_id := s.next_addr_id
      let store2 := cl.2.foldl
        (fun st r => update_records st r.type r.id addr_id)
        (insert_address s.store addr_id addr)
      let baseTrace := s.trace
        ++ [Eff.apiCall r0.lat r0.lng, Eff.insertAddr addr_id addr]
        ++ cl.2.map (fun r => Eff.updateRec r.type r.id addr_id)
      let calls := s.api_calls + 1
      { store := store2, grid := s.grid, next_addr_id := addr_id + 1,
        api_calls := calls, api_errors := s.api_errors,
        records_updated := s.records_updated + cl.2.length,
        trace := if calls % 50 = 0 then baseTrace ++ [Eff.commit] else baseTrace }

/-- The Phase-2 `for` loop over `cells_to_geocode` (source line 392). -/
def phase2Loop (provider : ℚ → ℚ → Option GeocodeResult) :
    P2State → List Cluster → P2State
  | s, [] => s
  | s, cl :: rest => phase2Loop provider (phase2Step provider s cl) rest

/-- Phase 2 including the unconditional final commit (source line 426). -/
def phase2 (provider : ℚ → ℚ → Option GeocodeResult) (s : P2State)
    (cells : List Cluster) : P2State :=
  let s' := phase2Loop provider s cells
  { s' with trace := s'.trace ++ [Eff.commit] }

/-- Phase 3 for a non-dry run (source lines 435-455): count remaining
references to the placeholder; delete it (and commit) only when the
count is exactly zero, otherwise report and leave the store unchanged. -/
def phase3 (store : Store) (placeholder_id : ℕ) : Store × List Eff :=
  if countPlaceholderRefs store placeholder_id = 0 then
    (delete_placeholder store placeholder_id,
      [Eff.deleteAddr placeholder_id, Eff.commit])
  else (store, [])

/-- `api_calls * 0.005 if api_calls > 10000 else 0` (source lines 465
and 470). -/
def estCost (calls : ℕ) : ℚ :=
  if 10000 < calls then (calls : ℚ) * 0.005 else 0

/-- The numbers of the run report together with the final store and the
full effect trace. -/
structure RunResult where
  store : Store
  trace : List Eff
  totalPending : ℕ
  clustersCount : ℕ
  matchedFromExisting : ℕ
  recordsUpdatedPhase1 : ℕ
  lookupNeeded : ℕ
  api_calls : ℕ
  api_errors : ℕ
  recordsUpdatedPhase2 : ℕ
  est_cost : ℚ
deriving Repr

/-- `main` after the connection is established (source lines 306-474),
with the pending records, the existing addresses, the placeholder id and
the next serial address id taken as inputs (they are what the initial
SELECTs return).  An empty pending set returns early (source lines
317-321).  In a dry run Phase 1 performs no updates and no commit,
Phase 2 and Phase 3 are skipped entirely, and the report is computed
from the would-be counts (source lines 376-379 and 467-471). -/
def runGeocode (dry_run : Bool) (grid_size : ℚ)
    (provider : ℚ → ℚ → Option GeocodeResult)
    (pending : List PendingRecord) (existing : List (ℕ × ℚ × ℚ))
    (store : Store) (placeholder_id : ℕ) (next_addr_id : ℕ) : RunResult :=
  if pending = [] then
    ⟨store, [], 0, 0, 0, 0, 0, 0, 0, 0, 0⟩
  else
    let clusters := buildClusters pending grid_size
    let grid := build_existing_grid existing grid_size
    let p1 := phase1 dry_run grid clusters store
    if dry_run then
      { store := p1.store, trace := p1.trace,
        totalPending := pending.length, clustersCount := clusters.length,
        matchedFromExisting := p1.matched,
        recordsUpdatedPhase1 := p1.updated1,
        lookupNeeded := p1.cells_to_geocode.length,
        api_calls := 0, api_errors := 0, recordsUpdatedPhase2 := 0,
        est_cost := estCost p1.cells_to_geocode.length }
    else
      let s0 : P2State :=
        ⟨p1.store, grid, next_addr_id, 0, 0, 0, p1.trace ++ [Eff.commit]⟩
      let s2 := phase2 provider s0 p1.cells_to_geocode
      let p3 := phase3 s2.store placeholder_id
      { store := p3.1, trace := s2.trace ++ p3.2,
        totalPending := pending.length, clustersCount := clusters.length,
        matchedFromExisting := p1.matched,
        recordsUpdatedPhase1 := p1.updated1,
        lookupNeeded := p1.cells_to_geocode.length,
        api_calls := s2.api_calls, api_errors := s2.api_errors,
        recordsUpdatedPhase2 := s2.records_updated,
        est_cost := estCost s2.api_calls }

/-- Number of provider calls recorded in a trace. -/
def countApiCalls (t : List Eff) : ℕ :=
  t.countP fun e => match e with
    | Eff.apiCall _ _ => true
    | _ => false

/-- Folding step for `uncommittedSuccesses`: a commit resets the count,
an insert (successful lookup) increments it. -/
def uncommittedStepFn (n : ℕ) (e : Eff) : ℕ :=
  match e with
  | Eff.commit => 0
  | Eff.insertAddr _ _ => n + 1
  | _ => n

/-- Successful lookups (inserts) recorded in a trace since the last
commit: what a crash at that point would lose. -/
def uncommittedSuccesses (t : List Eff) : ℕ :=
  t.foldl uncommittedStepFn 0

/-- Number of commits recorded in a trace. -/
def countCommits (t : List Eff) : ℕ :=
  t.countP fun e => match e with
    | Eff.commit => true
    | _ => false

/-! ## Helper lemmas -/

theorem bankersRound_intCast (k : ℤ) : bankersRound (k : ℚ) = k := by
  have hfl : ((k : ℚ)).floor = k := by
    rw [Rat.floor_def']; simp
  simp [bankersRound, hfl]

theorem round6_eq_self (q : ℚ) (k : ℤ) (h : q * 1000000 = (k : ℚ)) :
    round6 q = q := by
  rw [round6, h, bankersRound_intCast]
  field_simp at h ⊢
  linarith [h]

theorem phase1_matched (d : Bool) (grid : List ((ℚ × ℚ) × ℕ))
    (cs : List Cluster) : ∀ store : Store,
    (phase1 d grid cs store).matched
      = (cs.filter fun cl => (gridLookup grid cl.1).isSome).length := by
  induction cs with
  | nil => intro store; simp [phase1]
  | cons cl rest ih =>
    intro store
    obtain ⟨cell, records⟩ := cl
    cases h : gridLookup grid cell <;>
      simp [phase1, h, ih, List.filter_cons]

theorem phase1_cells (d : Bool) (grid : List ((ℚ × ℚ) × ℕ))
    (cs : List Cluster) : ∀ store : Store,
    (phase1 d grid cs store).cells_to_geocode
      = cs.filter fun cl => (gridLookup grid cl.1).isNone := by
  induction cs with
  | nil => intro store; simp [phase1]
  | cons cl rest ih =>
    intro store
    obtain ⟨cell, records⟩ := cl
    cases h : gridLookup grid cell <;>
      simp [phase1, h, ih, List.filter_cons]

theorem phase1_dry_store (grid : List ((ℚ × ℚ) × ℕ)) (cs : List Cluster) :
    ∀ store : Store, (phase1 true grid cs store).store = store := by
  induction cs with
  | nil => intro store; simp [phase1]
  | cons cl rest ih =>
    intro store
    obtain ⟨cell, records⟩ := cl
    cases h : gridLookup grid cell <;> simp [phase1, h, ih]

theorem phase1_dry_trace (grid : List ((ℚ × ℚ) × ℕ)) (cs : List Cluster) :
    ∀ store : Store, (phase1 true grid cs store).trace = [] := by
  induction cs with
  | nil => intro store; simp [phase1]
  | cons cl rest ih =>
    intro store
    obtain ⟨cell, records⟩ := cl
    cases h : gridLookup grid cell <;> simp [phase1, h, ih]

theorem countApiCalls_append (t u : List Eff) :
    countApiCalls (t ++ u) = countApiCalls t + countApiCalls u := by
  simp [countApiCalls, List.countP_append]

theorem countApiCalls_updates (l : List PendingRecord) (aid : ℕ) :
    countApiCalls (l.map fun r => Eff.updateRec r.type r.id aid) = 0 := by
  induction l with
  | nil => simp [countApiCalls]
  | cons r rest ih => simpa [countApiCalls, List.countP_cons] using ih

theorem phase2Step_api_calls (provider : ℚ → ℚ → Option GeocodeResult)
    (s : P2State) (cl : Cluster) (h : cl.2 ≠ []) :
    (phase2Step provider s cl).api_calls = s.api_calls + 1 := by
  obtain ⟨cell, records⟩ := cl
  cases records with
  | nil => simp at h
  | cons r0 rs =>
    cases hp : provider r0.lat r0.lng <;> simp [phase2Step, hp]

theorem phase2Step_grid (provider : ℚ → ℚ → Option GeocodeResult)
    (s : P2State) (cl : Cluster) : (phase2Step provider s cl).grid = s.grid := by
  obtain ⟨cell, records⟩ := cl
  cases records with
  | nil => rfl
  | cons r0 rs =>
    cases hp : provider r0.lat r0.lng <;> simp [phase2Step, hp]

theorem phase2Loop_grid (provider : ℚ → ℚ → Option GeocodeResult)
    (cs : List Cluster) : ∀ s : P2State,
    (phase2Loop provider s cs).grid = s.grid := by
  induction cs with
  | nil => intro s; rfl
  | cons cl rest ih =>
    intro s
    rw [phase2Loop, ih, phase2Step_grid]

theorem phase2Loop_api_calls (provider : ℚ → ℚ → Option GeocodeResult)
    (cs : List Cluster) (h : ∀ cl ∈ cs, cl.2 ≠ []) : ∀ s : P2State,
    (phase2Loop provider s cs).api_calls = s.api_calls + cs.length := by
  induction cs with
  | nil => intro s; simp [phase2Loop]
  | cons cl rest ih =>
    intro s
    rw [phase2Loop, ih fun c hc => h c (List.mem_cons_of_mem _ hc),
      phase2Step_api_calls provider s cl (h cl (List.mem_cons_self _ _))]
    simp [List.length_cons]
    omega

theorem addToCluster_keys (cs : List Cluster) (cell : ℚ × ℚ)
    (r : PendingRecord) :
    (addToCluster cs cell r).map Prod.fst
      = if cell ∈ cs.map Prod.fst then cs.map Prod.fst
        else cs.map Prod.fst ++ [cell] := by
  induction cs with
  | nil => simp [addToCluster]
  | cons hd tl ih =>
    obtain ⟨c, rs⟩ := hd
    by_cases hc : c = cell
    · simp [addToCluster, hc]
    · by_cases hm : cell ∈ tl.map Prod.fst <;>
        simp [addToCluster, hc, ih, hm, Ne.symm hc]

theorem addToCluster_nodup (cs : List Cluster) (cell : ℚ × ℚ)
    (r : PendingRecord) (h : (cs.map Prod.fst).Nodup) :
    ((addToCluster cs cell r).map Prod.fst).Nodup := by
  rw [addToCluster_keys]
  by_cases hm : cell ∈ cs.map Prod.fst
  · simpa [hm] using h
  · simp [hm, List.nodup_append, h]

theorem buildClusters_keys_nodup (pending : List PendingRecord) (g : ℚ) :
    ((buildClusters pending g).map Prod.fst).Nodup := by
  suffices h : ∀ acc : List Cluster, (acc.map Prod.fst).Nodup →
      ((pending.foldl
          (fun cs r => addToCluster cs (snapCell r.lat r.lng g) r)
          acc).map Prod.fst).Nodup by
    exact h [] (by simp)
  induction pending with
  | nil => intro acc hacc; simpa using hacc
  | cons p rest ih =>
    intro acc hacc
    simp only [List.foldl_cons]
    exact ih _ (addToCluster_nodup _ _ _ hacc)

theorem addToCluster_nonempty (cs : List Cluster) (cell : ℚ × ℚ)
    (r : PendingRecord) (h : ∀ cl ∈ cs, cl.2 ≠ []) :
    ∀ cl ∈ addToCluster cs cell r, cl.2 ≠ [] := by
  induction cs with
  | nil =>
    intro cl hcl
    simp [addToCluster] at hcl
    subst hcl; simp
  | cons hd tl ih =>
    obtain ⟨c, rs⟩ := hd
    intro cl hcl
    by_cases hc : c = cell
    · simp [addToCluster, hc] at hcl
      rcases hcl with hcl | hcl
      · subst hcl; simp
      · exact h cl (List.mem_cons_of_mem _ hcl)
    · simp only [addToCluster, if_neg hc, List.mem_cons] at hcl
      rcases hcl with hcl | hcl
      · subst hcl; exact h (c, rs) (List.mem_cons_self _ _)
      · exact ih (fun c hc => h c (List.mem_cons_of_mem _ hc)) cl hcl

theorem buildClusters_nonempty (pending : List PendingRecord) (g : ℚ) :
    ∀ cl ∈ buildClusters pending g, cl.2 ≠ [] := by
  suffices h : ∀ acc : List Cluster, (∀ cl ∈ acc, cl.2 ≠ []) →
      ∀ cl ∈ pending.foldl
          (fun cs r => addToCluster cs (snapCell r.lat r.lng g) r) acc,
        cl.2 ≠ [] by
    exact h [] (by simp)
  induction pending with
  | nil => intro acc hacc; simpa using hacc
  | cons p rest ih =>
    intro acc hacc
    simp only [List.foldl_cons]
    exact ih _ (addToCluster_nonempty _ _ _ hacc)

theorem phase2Step_success_eq (provider : ℚ → ℚ → Option GeocodeResult)
    (s : P2State) (cell : ℚ × ℚ) (r0 : PendingRecord)
    (rs : List PendingRecord) (res : GeocodeResult)
    (hres : provider r0.lat r0.lng = some res) :
    phase2Step provider s (cell, r0 :: rs)
      = { store := (r0 :: rs).foldl
            (fun st r => update_records st r.type r.id s.next_addr_id)
            (insert_address s.store s.next_addr_id
              (google_result_to_address res cell.1 cell.2)),
          grid := s.grid,
          next_addr_id := s.next_addr_id + 1,
          api_calls := s.api_calls + 1,
          api_errors := s.api_errors,
          records_updated := s.records_updated + (r0 :: rs).length,
          trace := (s.trace
              ++ [Eff.apiCall r0.lat r0.lng,
                  Eff.insertAddr s.next_addr_id
                    (google_result_to_address res cell.1 cell.2)]
              ++ (r0 :: rs).map fun r => Eff.updateRec r.type r.id s.next_addr_id)
            ++ (if (s.api_calls + 1) % 50 = 0 then [Eff.commit] else []) } := by
  simp only [phase2Step, hres]
  split <;> simp

theorem phase2Step_failure_eq (provider : ℚ → ℚ → Option GeocodeResult)
    (s : P2State) (cell : ℚ × ℚ) (r0 : PendingRecord)
    (rs : List PendingRecord) (hfail : provider r0.lat r0.lng = none) :
    phase2Step provider s (cell, r0 :: rs)
      = { s with api_calls := s.api_calls + 1,
                 api_errors := s.api_errors + 1,
                 trace := s.trace ++ [Eff.apiCall r0.lat r0.lng] } := by
  simp [phase2Step, hfail]

theorem uncommitted_fold_updates (l : List PendingRecord) (aid : ℕ)
    (n : ℕ) :
    List.foldl uncommittedStepFn n (l.map fun r => Eff.updateRec r.type r.id aid)
      = n := by
  induction l generalizing n with
  | nil => rfl
  | cons r rest ih => simpa [uncommittedStepFn] using ih n

theorem uncommitted_after_success (provider : ℚ → ℚ → Option GeocodeResult)
    (s : P2State) (cell : ℚ × ℚ) (r0 : PendingRecord)
    (rs : List PendingRecord) (res : GeocodeResult)
    (hres : provider r0.lat r0.lng = some res) :
    uncommittedSuccesses (phase2Step provider s (cell, r0 :: rs)).trace
      = if (s.api_calls + 1) % 50 = 0 then 0
        else uncommittedSuccesses s.trace + 1 := by
  rw [phase2Step_success_eq provider s cell r0 rs res hres]
  by_cases hc : (s.api_calls + 1) % 50 = 0 <;>
    simp [hc, uncommittedSuccesses, List.foldl_append, uncommittedStepFn,
      uncommitted_fold_updates]

theorem uncommitted_after_failure (provider : ℚ → ℚ → Option GeocodeResult)
    (s : P2State) (cell : ℚ × ℚ) (r0 : PendingRecord)
    (rs : List PendingRecord) (hfail : provider r0.lat r0.lng = none) :
    uncommittedSuccesses (phase2Step provider s (cell, r0 :: rs)).trace
      = uncommittedSuccesses s.trace := by
  rw [phase2Step_failure_eq provider s cell r0 rs hfail]
  simp [uncommittedSuccesses, List.foldl_append, uncommittedStepFn]

theorem countCommits_append (t u : List Eff) :
    countCommits (t ++ u) = countCommits t + countCommits u := by
  simp [countCommits, List.countP_append]

theorem countCommits_updates (l : List PendingRecord) (aid : ℕ) :
    countCommits (l.map fun r => Eff.updateRec r.type r.id aid) = 0 := by
  induction l with
  | nil => simp [countCommits]
  | cons r rest ih => simpa [countCommits, List.countP_cons] using ih

theorem phase2Loop_append (provider : ℚ → ℚ → Option GeocodeResult)
    (cs₁ cs₂ : List Cluster) : ∀ s : P2State,
    phase2Loop provider s (cs₁ ++ cs₂)
      = phase2Loop provider (phase2Loop provider s cs₁) cs₂ := by
  induction cs₁ with
  | nil => intro s; rfl
  | cons cl rest ih =>
    intro s
    simp only [List.cons_append, phase2Loop, ih, List.append_eq]

theorem phase2Loop_success_counters (provider : ℚ → ℚ → Option GeocodeResult)
    (cs : List Cluster)
    (hok : ∀ cl ∈ cs, ∃ r0 rs, cl.2 = r0 :: rs
      ∧ (provider r0.lat r0.lng).isSome = true) : ∀ s : P2State,
    (phase2Loop provider s cs).api_calls = s.api_calls + cs.length
    ∧ (phase2Loop provider s cs).api_errors = s.api_errors := by
  induction cs with
  | nil => intro s; simp [phase2Loop]
  | cons cl rest ih =>
    intro s
    obtain ⟨r0, rs, hcl, hsome⟩ := hok cl (List.mem_cons_self _ _)
    obtain ⟨res, hres⟩ := Option.isSome_iff_exists.mp hsome
    obtain ⟨cell, records⟩ := cl
    simp only at hcl
    subst hcl
    rw [phase2Loop]
    obtain ⟨ihc, ihe⟩ := ih (fun c hc => hok c (List.mem_cons_of_mem _ hc))
      (phase2Step provider s (cell, r0 :: rs))
    have hc : (phase2Step provider s (cell, r0 :: rs)).api_calls
        = s.api_calls + 1 := by
      rw [phase2Step_success_eq provider s cell r0 rs res hres]
    have he : (phase2Step provider s (cell, r0 :: rs)).api_errors
        = s.api_errors := by
      rw [phase2Step_success_eq provider s cell r0 rs res hres]
    rw [ihc, ihe, hc, he]
    simp only [List.length_cons]
    constructor
    · omega
    · trivial

theorem phase2Loop_uncommitted (provider : ℚ → ℚ → Option GeocodeResult)
    (cs : List Cluster)
    (hok : ∀ cl ∈ cs, ∃ r0 rs, cl.2 = r0 :: rs
      ∧ (provider r0.lat r0.lng).isSome = true) : ∀ s : P2State,
    uncommittedSuccesses s.trace = s.api_calls % 50 →
    uncommittedSuccesses (phase2Loop provider s cs).trace
      = (phase2Loop provider s cs).api_calls % 50 := by
  induction cs with
  | nil => intro s h; simpa [phase2Loop]
  | cons cl rest ih =>
    intro s h
    obtain ⟨r0, rs, hcl, hsome⟩ := hok cl (List.mem_cons_self _ _)
    obtain ⟨res, hres⟩ := Option.isSome_iff_exists.mp hsome
    obtain ⟨cell, records⟩ := cl
    simp only at hcl
    subst hcl
    rw [phase2Loop]
    apply ih (fun c hc => hok c (List.mem_cons_of_mem _ hc))
    rw [uncommitted_after_success provider s cell r0 rs res hres,
      phase2Step_success_eq provider s cell r0 rs res hres]
    by_cases hc : (s.api_calls + 1) % 50 = 0 <;> simp [hc, h] <;> omega

/-! ## Claim theorems -/

/-- C2: for every coordinate and nonzero grid size, the grid index is the
pure function `(round(lat/g)*g, round(lng/g)*g)` with the same rounding
rule (banker's, Python `round`) for both components; identical inputs
give the identical cluster key, with no side effects or call-order
dependence (`snap_to_grid` is a function of its arguments alone). -/
theorem snap_pure_single_rounding (lat lng g : ℚ) (hg : g ≠ 0) :
    snap_to_grid lat lng g
      = some (bankersRound (lat / g) * g, bankersRound (lng / g) * g)
    ∧ ∀ lat' lng' : ℚ, lat' = lat → lng' = lng →
        snap_to_grid lat' lng' g = snap_to_grid lat lng g := by
  refine ⟨by simp [snap_to_grid, hg, snapCell], ?_⟩
  rintro lat' lng' rfl rfl
  rfl

theorem snap_pure_single_rounding_witness :
    snap_to_grid 1 2 (1/2)
      = some ((bankersRound (1 / (1/2)) : ℚ) * (1/2),
          (bankersRound (2 / (1/2)) : ℚ) * (1/2)) :=
  (snap_pure_single_rounding 1 2 (1/2) (by norm_num)).1

/-- C10: `snap_to_grid` is total only for nonzero grid sizes — grid size 0
hits Python float division by zero (modelled by `none`) — and the
configuration checks accept any grid size, including 0, since they only
inspect the API key and the database password. -/
theorem zero_grid_size_unchecked (lat lng : ℚ) (api_key db_pass : String)
    (dry_run : Bool) :
    snap_to_grid lat lng 0 = none
    ∧ (∀ g : ℚ, g ≠ 0 → (snap_to_grid lat lng g).isSome = true)
    ∧ configChecksPass (some api_key) (some db_pass) dry_run 0 = true := by
  refine ⟨by simp [snap_to_grid], fun g hg => by simp [snap_to_grid, hg],
    by simp [configChecksPass]⟩

theorem zero_grid_size_unchecked_witness :
    snap_to_grid 42 (-71) 0 = none
    ∧ (snap_to_grid 42 (-71) DEFAULT_GRID_SIZE).isSome = true :=
  ⟨(zero_grid_size_unchecked 42 (-71) "k" "p" false).1,
    (zero_grid_size_unchecked 42 (-71) "k" "p" false).2.1 DEFAULT_GRID_SIZE
      (by norm_num [DEFAULT_GRID_SIZE])⟩

/-- C4: in a non-dry run the placeholder is deleted if and only if the
Phase-3 count query over drive starts, drive ends and charging processes
returns exactly zero; with a positive count the store is left unchanged
and no effect is issued (reported only, never fatal). -/
theorem sentinel_delete_iff_zero_refs (store : Store) (pid : ℕ) :
    (Eff.deleteAddr pid ∈ (phase3 store pid).2
      ↔ countPlaceholderRefs store pid = 0)
    ∧ (countPlaceholderRefs store pid = 0 →
        (phase3 store pid).1 = delete_placeholder store pid
          ∧ (phase3 store pid).2 = [Eff.deleteAddr pid, Eff.commit])
    ∧ (countPlaceholderRefs store pid ≠ 0 →
        (phase3 store pid).1 = store ∧ (phase3 store pid).2 = []) := by
  by_cases h : countPlaceholderRefs store pid = 0 <;> simp [phase3, h]

theorem sentinel_delete_iff_zero_refs_witness :
    Eff.deleteAddr 7 ∈ (phase3 (Store.mk [] [] []) 7).2
    ∧ (phase3 (Store.mk [⟨1, 7, 2⟩] [] []) 7).1 = Store.mk [⟨1, 7, 2⟩] [] [] :=
  ⟨(sentinel_delete_iff_zero_refs (Store.mk [] [] []) 7).1.mpr (by decide),
    ((sentinel_delete_iff_zero_refs (Store.mk [⟨1, 7, 2⟩] [] []) 7).2.2
      (by decide)).1⟩

/-- C8: a dry run computes the same total-pending, cluster, reuse-match
and lookup-needed counts as a real run over the same data, while issuing
no effect at all — no record update, no insert, no commit, no sentinel
deletion, and zero provider calls — and leaving the store untouched. -/
theorem dry_run_same_counts_no_effects (g : ℚ)
    (provider : ℚ → ℚ → Option GeocodeResult)
    (pending : List PendingRecord) (existing : List (ℕ × ℚ × ℚ))
    (store : Store) (pid nid : ℕ) :
    (runGeocode true g provider pending existing store pid nid).totalPending
      = (runGeocode false g provider pending existing store pid nid).totalPending
    ∧ (runGeocode true g provider pending existing store pid nid).clustersCount
      = (runGeocode false g provider pending existing store pid nid).clustersCount
    ∧ (runGeocode true g provider pending existing store pid nid).matchedFromExisting
      = (runGeocode false g provider pending existing store pid nid).matchedFromExisting
    ∧ (runGeocode true g provider pending existing store pid nid).lookupNeeded
      = (runGeocode false g provider pending existing store pid nid).lookupNeeded
    ∧ (runGeocode true g provider pending existing store pid nid).trace = []
    ∧ (runGeocode true g provider pending existing store pid nid).store = store
    ∧ countApiCalls
        (runGeocode true g provider pending existing store pid nid).trace = 0 := by
  by_cases hp : pending = []
  · simp [runGeocode, hp, countApiCalls]
  · simp [runGeocode, hp, phase1_matched, phase1_cells, phase1_dry_store,
      phase1_dry_trace, countApiCalls]

/-- C1: for a cluster processed in Phase 2 (the cells left unmatched by
Phase 1), exactly one provider call is made regardless of how many
records the cluster holds, and on success the single inserted address id
is written to every record of the cluster (trace and store level). -/
theorem cluster_single_call_fanout (provider : ℚ → ℚ → Option GeocodeResult)
    (s : P2State) (cell : ℚ × ℚ) (r0 : PendingRecord)
    (rs : List PendingRecord) (res : GeocodeResult)
    (hres : provider r0.lat r0.lng = some res) :
    (phase2Step provider s (cell, r0 :: rs)).api_calls = s.api_calls + 1
    ∧ countApiCalls (phase2Step provider s (cell, r0 :: rs)).trace
        = countApiCalls s.trace + 1
    ∧ (phase2Step provider s (cell, r0 :: rs)).trace
        = (s.trace
            ++ [Eff.apiCall r0.lat r0.lng,
                Eff.insertAddr s.next_addr_id
                  (google_result_to_address res cell.1 cell.2)]
            ++ (r0 :: rs).map (fun r => Eff.updateRec r.type r.id s.next_addr_id))
          ++ (if (s.api_calls + 1) % 50 = 0 then [Eff.commit] else [])
    ∧ (phase2Step provider s (cell, r0 :: rs)).store
        = (r0 :: rs).foldl
            (fun st r => update_records st r.type r.id s.next_addr_id)
            (insert_address s.store s.next_addr_id
              (google_result_to_address res cell.1 cell.2))
    ∧ (phase2Step provider s (cell, r0 :: rs)).records_updated
        = s.records_updated + (r0 :: rs).length := by
  refine ⟨?_, ?_, ?_, ?_, ?_⟩ <;>
    simp only [phase2Step, hres] <;>
    split <;>
    simp [countApiCalls_append, countApiCalls, List.countP_cons,
      countApiCalls_updates]

def witnessResult : GeocodeResult := ⟨"1 Test St", [], "{}"⟩

def witnessRecord : PendingRecord := ⟨5, RecordType.drive_start, 1, 2⟩

def witnessState : P2State := ⟨⟨[], [], []⟩, [], 7, 0, 0, 0, []⟩

theorem cluster_single_call_fanout_witness :
    (phase2Step (fun _ _ => some witnessResult) witnessState
      ((1, 2), [witnessRecord])).api_calls = witnessState.api_calls + 1 :=
  (cluster_single_call_fanout (fun _ _ => some witnessResult) witnessState
    (1, 2) witnessRecord [] witnessResult rfl).1

/-- C3: when the provider call for a cluster fails, no address is
inserted, no record is updated, no commit is issued (the state changes
only by counting the call and the error and logging the call effect);
the loop then continues with the next cluster, and over any list of
clusters every cluster gets exactly one call — a failed cluster is never
retried within the run and never aborts it. -/
theorem failed_cluster_no_writes (provider : ℚ → ℚ → Option GeocodeResult)
    (s : P2State) (cell : ℚ × ℚ) (r0 : PendingRecord)
    (rs : List PendingRecord) (hfail : provider r0.lat r0.lng = none) :
    phase2Step provider s (cell, r0 :: rs)
      = { s with api_calls := s.api_calls + 1,
                 api_errors := s.api_errors + 1,
                 trace := s.trace ++ [Eff.apiCall r0.lat r0.lng] }
    ∧ (phase2Step provider s (cell, r0 :: rs)).store = s.store
    ∧ (phase2Step provider s (cell, r0 :: rs)).next_addr_id = s.next_addr_id
    ∧ (∀ rest : List Cluster,
        phase2Loop provider s ((cell, r0 :: rs) :: rest)
          = phase2Loop provider (phase2Step provider s (cell, r0 :: rs)) rest)
    ∧ (∀ cs : List Cluster, (∀ cl ∈ cs, cl.2 ≠ []) →
        (phase2Loop provider s cs).api_calls = s.api_calls + cs.length) := by
  refine ⟨by simp [phase2Step, hfail], by simp [phase2Step, hfail],
    by simp [phase2Step, hfail], fun rest => rfl,
    fun cs h => phase2Loop_api_calls provider cs h s⟩

theorem failed_cluster_no_writes_witness :
    (phase2Step (fun _ _ => none) witnessState
      ((1, 2), [witnessRecord])).store = witnessState.store
    ∧ (phase2Loop (fun _ _ => none) witnessState
        [((1, 2), [witnessRecord])]).api_calls = witnessState.api_calls + 1 :=
  ⟨(failed_cluster_no_writes (fun _ _ => none) witnessState (1, 2)
      witnessRecord [] rfl).2.1,
    (failed_cluster_no_writes (fun _ _ => none) witnessState (1, 2)
      witnessRecord [] rfl).2.2.2.2 [((1, 2), [witnessRecord])]
      (by simp)⟩

/-- C5 counterexample: a successful Phase-2 lookup and insert (the next
address id is consumed, so the insert happened) after which the
in-memory catalog is NOT extended: it is still empty, in particular it
has no entry for the cluster key `(1, 2)` under the new address id 7. -/
theorem catalog_not_extended_cex :
    (phase2Step (fun _ _ => some witnessResult) witnessState
      ((1, 2), [witnessRecord])).next_addr_id = 8
    ∧ (phase2Step (fun _ _ => some witnessResult) witnessState
        ((1, 2), [witnessRecord])).grid = []
    ∧ gridLookup (phase2Step (fun _ _ => some witnessResult) witnessState
        ((1, 2), [witnessRecord])).grid (1, 2) ≠ some 7 := by
  refine ⟨rfl, rfl, by simp [phase2Step, gridLookup, witnessState]⟩

/-- C5 amended: the Phase-2 loop never writes to the in-memory catalog
(the source never updates `existing_grid` after an insert); no later
cluster can need the same key anyway, because `buildClusters` produces
pairwise-distinct cluster keys, so each key is looked up at most once
per run. -/
theorem catalog_unchanged_keys_unique (provider : ℚ → ℚ → Option GeocodeResult)
    (s : P2State) (cs : List Cluster) (pending : List PendingRecord)
    (g : ℚ) :
    (phase2Loop provider s cs).grid = s.grid
    ∧ ((buildClusters pending g).map Prod.fst).Nodup :=
  ⟨phase2Loop_grid provider cs s, buildClusters_keys_nodup pending g⟩

def cexResult : GeocodeResult := ⟨"X", [], "{}"⟩

/-- C6 counterexample: with grid size `5e-7` the representative
coordinate `1.4e-6` snaps to the cluster key `1.5e-6`, but the Location
constructed for that cluster stores latitude `round(1.5e-6, 6) = 2e-6`,
which is NOT the grid-snapped cluster-key coordinate. -/
theorem stored_coord_not_cluster_key_cex :
    snapCell (7/5000000) 0 (1/2000000) = (3/2000000, 0)
    ∧ (google_result_to_address cexResult (3/2000000) 0).latitude
        ≠ 3/2000000
    ∧ (phase2Step (fun _ _ => some cexResult) witnessState
        ((3/2000000, 0), [⟨5, RecordType.drive_start, 7/5000000, 0⟩])).store.addresses
      = [(7, google_result_to_address cexResult (3/2000000) 0)] := by
  refine ⟨?_, ?_, rfl⟩
  · norm_num [snapCell, bankersRound, Rat.floor_def']
  · norm_num [google_result_to_address, round6, bankersRound, Rat.floor_def']

/-- C6 amended: the provider is invoked on the first record's actual,
un-snapped coordinate, while the constructed Location stores the
grid-snapped cluster-key coordinate rounded to 6 decimal places
(Python `round(grid_lat, 6)`); the rounding is the identity — so the
stored coordinate equals the cluster key exactly — whenever the key is
an integer multiple of `1e-6`, which holds for every key produced with
the default grid size `0.0005`. -/
theorem lookup_raw_coord_stored_round6 (provider : ℚ → ℚ → Option GeocodeResult)
    (s : P2State) (cell : ℚ × ℚ) (r0 : PendingRecord)
    (rs : List PendingRecord) (res : GeocodeResult)
    (hres : provider r0.lat r0.lng = some res) :
    (∃ t : List Eff, (phase2Step provider s (cell, r0 :: rs)).trace
        = s.trace ++ Eff.apiCall r0.lat r0.lng :: t)
    ∧ (google_result_to_address res cell.1 cell.2).latitude = round6 cell.1
    ∧ (google_result_to_address res cell.1 cell.2).longitude = round6 cell.2
    ∧ (∀ q : ℚ, ∀ k : ℤ, q * 1000000 = (k : ℚ) → round6 q = q)
    ∧ (∀ lat lng : ℚ,
        round6 (snapCell lat lng DEFAULT_GRID_SIZE).1
          = (snapCell lat lng DEFAULT_GRID_SIZE).1
        ∧ round6 (snapCell lat lng DEFAULT_GRID_SIZE).2
          = (snapCell lat lng DEFAULT_GRID_SIZE).2) := by
  have hdef : DEFAULT_GRID_SIZE = 1/2000 := by
    norm_num [DEFAULT_GRID_SIZE]
  refine ⟨?_, rfl, rfl, fun q k h => round6_eq_self q k h, fun lat lng => ⟨?_, ?_⟩⟩
  · simp only [phase2Step, hres]
    split
    · exact ⟨Eff.insertAddr s.next_addr_id
          (google_result_to_address res cell.1 cell.2)
          :: ((r0 :: rs).map (fun r => Eff.updateRec r.type r.id s.next_addr_id)
              ++ [Eff.commit]), by simp⟩
    · exact ⟨Eff.insertAddr s.next_addr_id
          (google_result_to_address res cell.1 cell.2)
          :: (r0 :: rs).map (fun r => Eff.updateRec r.type r.id s.next_addr_id),
        by simp⟩
  · apply round6_eq_self _ (bankersRound (lat / DEFAULT_GRID_SIZE) * 500)
    simp only [snapCell]
    rw [hdef]
    push_cast
    ring
  · apply round6_eq_self _ (bankersRound (lng / DEFAULT_GRID_SIZE) * 500)
    simp only [snapCell]
    rw [hdef]
    push_cast
    ring

theorem lookup_raw_coord_stored_round6_witness :
    (google_result_to_address witnessResult (1 : ℚ) (2 : ℚ)).latitude
      = round6 1
    ∧ round6 (snapCell 42 (-71) DEFAULT_GRID_SIZE).1
        = (snapCell 42 (-71) DEFAULT_GRID_SIZE).1 :=
  ⟨(lookup_raw_coord_stored_round6 (fun _ _ => some witnessResult)
      witnessState (1, 2) witnessRecord [] witnessResult rfl).2.1,
    ((lookup_raw_coord_stored_round6 (fun _ _ => some witnessResult)
      witnessState (1, 2) witnessRecord [] witnessResult rfl).2.2.2.2
      42 (-71)).1⟩

/-- A provider that fails exactly at latitude 49 and succeeds elsewhere. -/
def c7Provider : ℚ → ℚ → Option GeocodeResult :=
  fun lat _ => if lat = 49 then none else some cexResult

/-- The `i`-th single-record cluster at latitude `i`. -/
def c7Cluster (i : ℕ) : Cluster :=
  (((i : ℚ), 0), [⟨i, RecordType.drive_start, (i : ℚ), 0⟩])

theorem c7Cluster_eq (i : ℕ) :
    c7Cluster i = (((i : ℚ), 0), [⟨i, RecordType.drive_start, (i : ℚ), 0⟩]) :=
  rfl

/-- 51 pairwise distinct single-record clusters. -/
def c7Clusters : List Cluster := (List.range 51).map c7Cluster

/-- The Phase-2 starting state of a fresh run. -/
def c7Start : P2State := ⟨⟨[], [], []⟩, [], 0, 0, 0, 0, []⟩

/-- C7 counterexample: 51 clusters, where only the 50th provider call
fails.  Calls 1–49 succeed with no commit (49 is not a multiple of 50),
call 50 fails so the success branch — the only place a commit can
happen — is skipped, and call 51 succeeds with 51 % 50 ≠ 0.  At that
point of the phase 50 successful lookups are uncommitted, violating the
claimed bound of N−1 = 49. -/
theorem commit_cadence_cex :
    uncommittedSuccesses (phase2Loop c7Provider c7Start c7Clusters).trace = 50
    ∧ (phase2Loop c7Provider c7Start c7Clusters).api_calls = 51
    ∧ (phase2Loop c7Provider c7Start c7Clusters).api_errors = 1 := by
  have h51 : List.range 51 = List.range 49 ++ [49, 50] := by
    rw [List.range_succ, List.range_succ]
    simp
  have hsplit : c7Clusters
      = (List.range 49).map c7Cluster ++ [c7Cluster 49, c7Cluster 50] := by
    rw [c7Clusters, h51, List.map_append]
    rfl
  have hokA : ∀ cl ∈ (List.range 49).map c7Cluster,
      ∃ r0 rs, cl.2 = r0 :: rs ∧ (c7Provider r0.lat r0.lng).isSome = true := by
    intro cl hcl
    simp only [List.mem_map, List.mem_range] at hcl
    obtain ⟨i, hi, rfl⟩ := hcl
    have hne : ((i : ℕ) : ℚ) ≠ 49 := by
      have hi' : i ≠ 49 := by omega
      exact_mod_cast hi'
    exact ⟨⟨i, RecordType.drive_start, (i : ℚ), 0⟩, [], rfl,
      by simp [c7Provider, c7Cluster, hne]⟩
  set s1 := phase2Loop c7Provider c7Start ((List.range 49).map c7Cluster)
    with hs1
  obtain ⟨hc1, he1⟩ := phase2Loop_success_counters c7Provider _ hokA c7Start
  have hcalls1 : s1.api_calls = 49 := by
    rw [hs1, hc1]
    simp [c7Start]
  have herr1 : s1.api_errors = 0 := by
    rw [hs1, he1]
    rfl
  have hu1 : uncommittedSuccesses s1.trace = 49 := by
    rw [hs1, phase2Loop_uncommitted c7Provider _ hokA c7Start
      (by simp [c7Start, uncommittedSuccesses]), ← hs1, hcalls1]
  have hfailP : c7Provider ((49 : ℕ) : ℚ) 0 = none := by
    norm_num [c7Provider]
  have hsuccP : c7Provider ((50 : ℕ) : ℚ) 0 = some cexResult := by
    norm_num [c7Provider]
  set s2 := phase2Step c7Provider s1 (c7Cluster 49) with hs2
  have hu2 : uncommittedSuccesses s2.trace = 49 := by
    rw [hs2, c7Cluster_eq 49,
      uncommitted_after_failure c7Provider s1 (((49 : ℕ) : ℚ), 0)
        ⟨49, RecordType.drive_start, ((49 : ℕ) : ℚ), 0⟩ [] hfailP, hu1]
  have hcalls2 : s2.api_calls = 50 := by
    rw [hs2, c7Cluster_eq 49,
      phase2Step_failure_eq c7Provider s1 (((49 : ℕ) : ℚ), 0)
        ⟨49, RecordType.drive_start, ((49 : ℕ) : ℚ), 0⟩ [] hfailP]
    simp [hcalls1]
  have herr2 : s2.api_errors = 1 := by
    rw [hs2, c7Cluster_eq 49,
      phase2Step_failure_eq c7Provider s1 (((49 : ℕ) : ℚ), 0)
        ⟨49, RecordType.drive_start, ((49 : ℕ) : ℚ), 0⟩ [] hfailP]
    simp [herr1]
  have hfinal : phase2Loop c7Provider c7Start c7Clusters
      = phase2Step c7Provider s2 (c7Cluster 50) := by
    rw [hsplit, phase2Loop_append]
    rfl
  refine ⟨?_, ?_, ?_⟩
  · rw [hfinal, c7Cluster_eq 50,
      uncommitted_after_success c7Provider s2 (((50 : ℕ) : ℚ), 0)
        ⟨50, RecordType.drive_start, ((50 : ℕ) : ℚ), 0⟩ [] cexResult hsuccP,
      hcalls2, hu2]
    norm_num
  · rw [hfinal, c7Cluster_eq 50,
      phase2Step_success_eq c7Provider s2 (((50 : ℕ) : ℚ), 0)
        ⟨50, RecordType.drive_start, ((50 : ℕ) : ℚ), 0⟩ [] cexResult hsuccP]
    simp [hcalls2]
  · rw [hfinal, c7Cluster_eq 50,
      phase2Step_success_eq c7Provider s2 (((50 : ℕ) : ℚ), 0)
        ⟨50, RecordType.drive_start, ((50 : ℕ) : ℚ), 0⟩ [] cexResult hsuccP]
    simp [herr2]

/-- C7 amended: a Phase-2 commit happens exactly when a lookup succeeds
AND the total number of provider calls so far — failures included — is a
multiple of 50; the cadence counts calls, not successful lookups.  In a
phase where every lookup succeeds the two coincide, and the number of
uncommitted successful lookups always stays at `api_calls % 50 ≤ 49`;
with interleaved failures the claimed N−1 bound fails (see the
counterexample). -/
theorem commit_cadence_error_free (provider : ℚ → ℚ → Option GeocodeResult)
    (s : P2State) (cs : List Cluster)
    (hok : ∀ cl ∈ cs, ∃ r0 rs, cl.2 = r0 :: rs
      ∧ (provider r0.lat r0.lng).isSome = true)
    (hinit : uncommittedSuccesses s.trace = s.api_calls % 50) :
    uncommittedSuccesses (phase2Loop provider s cs).trace ≤ 49
    ∧ (∀ (cell : ℚ × ℚ) (r0 : PendingRecord) (rs : List PendingRecord)
        (res : GeocodeResult), provider r0.lat r0.lng = some res →
        countCommits (phase2Step provider s (cell, r0 :: rs)).trace
          = countCommits s.trace
            + (if (s.api_calls + 1) % 50 = 0 then 1 else 0))
    ∧ (∀ (cell : ℚ × ℚ) (r0 : PendingRecord) (rs : List PendingRecord),
        provider r0.lat r0.lng = none →
        countCommits (phase2Step provider s (cell, r0 :: rs)).trace
          = countCommits s.trace) := by
  refine ⟨?_, ?_, ?_⟩
  · rw [phase2Loop_uncommitted provider cs hok s hinit]
    have hlt := Nat.mod_lt (phase2Loop provider s cs).api_calls
      (show 0 < 50 by norm_num)
    omega
  · intro cell r0 rs res hres
    rw [phase2Step_success_eq provider s cell r0 rs res hres]
    by_cases hc : (s.api_calls + 1) % 50 = 0 <;>
      simp [hc, countCommits_append, countCommits, List.countP_cons,
        countCommits_updates]
  · intro cell r0 rs hfail
    rw [phase2Step_failure_eq provider s cell r0 rs hfail]
    simp [countCommits_append, countCommits, List.countP_cons]

theorem commit_cadence_error_free_witness :
    uncommittedSuccesses (phase2Loop (fun _ _ => some witnessResult)
      witnessState [((1, 2), [witnessRecord])]).trace ≤ 49 :=
  (commit_cadence_error_free (fun _ _ => some witnessResult) witnessState
    [((1, 2), [witnessRecord])]
    (by
      intro cl hcl
      simp only [List.mem_cons, List.not_mem_nil, or_false] at hcl
      subst hcl
      exact ⟨witnessRecord, [], rfl, rfl⟩)
    (by simp [witnessState, uncommittedSuccesses])).1

/-- C9 counterexample: at 10001 calls — one beyond the free tier — the
source reports `10001 × $0.005 = $50.005`, not the excess-only
`(10001 − 10000) × $0.005 = $0.005`: above the threshold every call is
charged, not only the excess. -/
theorem est_cost_total_not_excess_cex :
    estCost 10001 = (10001 : ℚ) * 0.005
    ∧ ¬ estCost 10001 = (10001 - 10000 : ℚ) * 0.005 := by
  constructor <;> norm_num [estCost]

/-- C9 amended: the reported estimate is $0 for any call count at or
below the 10,000-call free tier, and `calls × $0.005` over the TOTAL
number of calls (not the excess) above it; the reported number of calls
of a real run is exactly the number of clusters Phase 1 left unmatched. -/
theorem est_cost_threshold (g : ℚ) (provider : ℚ → ℚ → Option GeocodeResult)
    (pending : List PendingRecord) (existing : List (ℕ × ℚ × ℚ))
    (store : Store) (pid nid : ℕ) :
    (runGeocode false g provider pending existing store pid nid).est_cost
      = estCost (runGeocode false g provider pending existing store pid nid).api_calls
    ∧ (runGeocode false g provider pending existing store pid nid).api_calls
      = ((buildClusters pending g).filter
          fun cl => (gridLookup (build_existing_grid existing g) cl.1).isNone).length
    ∧ (∀ n : ℕ, n ≤ 10000 → estCost n = 0)
    ∧ (∀ n : ℕ, 10000 < n → estCost n = (n : ℚ) * 0.005) := by
  refine ⟨?_, ?_, fun n hn => ?_, fun n hn => ?_⟩
  · by_cases hp : pending = [] <;>
      simp [runGeocode, hp, estCost]
  · by_cases hp : pending = []
    · simp [runGeocode, hp, buildClusters]
    · have hcells := phase1_cells false (build_existing_grid existing g)
        (buildClusters pending g) store
      have hne : ∀ cl ∈ (phase1 false (build_existing_grid existing g)
          (buildClusters pending g) store).cells_to_geocode, cl.2 ≠ [] := by
        rw [hcells]
        intro cl hcl
        exact buildClusters_nonempty pending g cl (List.mem_of_mem_filter hcl)
      simp only [runGeocode, if_neg hp, Bool.false_eq_true, if_false, phase2]
      rw [phase2Loop_api_calls provider _ hne]
      simp [hcells]
  · rw [estCost, if_neg (by omega)]
  · rw [estCost, if_pos hn]

theorem est_cost_threshold_witness :
    estCost 10000 = 0 ∧ estCost 10001 = (10001 : ℚ) * 0.005 :=
  ⟨(est_cost_threshold 1 (fun _ _ => none) [] [] (Store.mk [] [] []) 0 0).2.2.1
      10000 (by norm_num),
    (est_cost_threshold 1 (fun _ _ => none) [] [] (Store.mk [] [] []) 0 0).2.2.2
      10001 (by norm_num)⟩

end Geocode
